import Mathlib

/-!
Verification development for the outreach delivery pipeline of the
ReNodeX/ai-delegator repository (sender subsystem).

JavaScript strings are modelled as lists of UTF-16 code units
(`List Nat`); all inputs relevant to the claims are ASCII, where one
code unit is one character.  Times (`Date.now()`, dayjs instants) are
modelled as integer milliseconds.  Fallible persistence (JSON file
writes) is out of scope of the claims and modelled as pure state.
-/

/-- Converts a Lean string literal to the list of its code points, for
writing concrete JS-string values readably. -/
def strCodes (s : String) : List Nat := s.data.map Char.toNat

/-- Model of one step of JS `String.prototype.toLowerCase` on a single
UTF-16 unit, restricted to ASCII (A-Z mapped to a-z, the case relevant
to contact keys). -/
def jsLowerCode (n : Nat) : Nat := if 65 ≤ n ∧ n ≤ 90 then n + 32 else n

/-- Model of JS `String.prototype.toLowerCase` (ASCII range). -/
def jsLower (l : List Nat) : List Nat := l.map jsLowerCode

/-- Code units removed by JS `String.prototype.trim` (space, tab, LF,
CR, VT, FF, NBSP, BOM). -/
def isJsWs (n : Nat) : Bool :=
  n == 32 || n == 9 || n == 10 || n == 13 || n == 11 || n == 12 || n == 160 || n == 65279

/-- Model of JS `String.prototype.trim`. -/
def jsTrim (l : List Nat) : List Nat :=
  ((l.dropWhile isJsWs).reverse.dropWhile isJsWs).reverse

/-- Model of the idiom `if (s.startsWith(at)) s = s.substring(1)` where
`at` is the commercial at sign (code 64). -/
def stripLeadAt (l : List Nat) : List Nat :=
  if l.head? == some 64 then l.tail else l

/-- `SentHistory.normalizeContactKey` (src/sender/src/core/sent-history.js
lines 115-122): lowercase, trim, strip one leading at sign.  The null
guard returning the empty string is subsumed: the empty list maps to
itself. -/
def normalizeContactKey (k : List Nat) : List Nat :=
  stripLeadAt (jsTrim (jsLower k))

/-- The dedupe-relevant part of the sender configuration
(src/unnamed/part_001 line 113 sets both flags to true). -/
structure DedupeConfig where
  stripAt : Bool
  lowercase : Bool
deriving DecidableEq, Repr

/-- The production dedupe configuration from src/unnamed/part_001. -/
def prodDedupe : DedupeConfig := { stripAt := true, lowercase := true }

/-- Contact type tag produced by `normalizeContact`. -/
inductive ContactType where
  | username
  | link
deriving DecidableEq, Repr

/-- Model of `normalized.split(slash).pop() || normalized`: the segment
after the last slash (code 47), or the whole string when that segment
is empty or there is no slash. -/
def lastSlashSegment (l : List Nat) : List Nat :=
  let seg := (l.reverse.takeWhile (fun n => !(n == 47))).reverse
  if seg.isEmpty then l else seg

/-- `normalizeContact` (src/sender/src/core/util.js, lines 237-247 of
the combined core sources): trim, optionally strip a leading at sign,
optionally lowercase, then classify as link (contains a slash, key is
the last slash segment) or username. -/
def normalizeContact (contact : List Nat) (cfg : DedupeConfig) : List Nat × ContactType :=
  let n1 := jsTrim contact
  let n2 := if cfg.stripAt && n1.head? == some 64 then n1.tail else n1
  let n3 := if cfg.lowercase then jsLower n2 else n2
  if n3.contains 47 then (lastSlashSegment n3, ContactType.link) else (n3, ContactType.username)

/-- Model of JS `parseInt` on a decimal-digit string (the work-window
fields are always of the form HH or MM). -/
def jsParseIntCodes (l : List Nat) : Int :=
  ((l.takeWhile (fun n => 48 ≤ n ∧ n ≤ 57)).foldl (fun acc n => acc * 10 + (n - 48)) 0 : Nat)

/-- Minutes past midnight denoted by a window bound such as "22:00",
via `parseInt(window.start.split(colon)[0])` and `[1]`. -/
def windowBoundMinutes (s : List Nat) : Int :=
  let parts := s.splitOn 58
  jsParseIntCodes (parts.getD 0 []) * 60 + jsParseIntCodes (parts.getD 1 [])

/-- `isInWorkWindow` (src/sender/src/core/sender-time.js lines 32-45).
The current instant is represented by its minutes past local midnight
(the dayjs values compared there differ only in hour/minute; `isAfter`
and `isBefore` are strict comparisons). -/
def isInWorkWindow (wstart wend : List Nat) (nowMin : Int) : Bool :=
  let ws := windowBoundMinutes wstart
  let we := windowBoundMinutes wend
  if ws > we then nowMin > ws || nowMin < we
  else nowMin > ws && nowMin < we

/-- State of `RateLimiter` (src/sender/src/core/rate.js).  The
configuration fields are fixed at construction; `messageIntervalMs` is
drawn once from the configured range and kept abstract here. -/
structure RateLimiter where
  maxMessages : Nat
  messageIntervalMs : Int
  burstPauseMs : Int
  sentMessages : List Int
  lastSentTime : Int
  burstStartTime : Int
  isFirstRun : Bool
deriving DecidableEq, Repr

/-- `rateConfig.autoResetThresholdMs`. -/
def autoResetThresholdMs : Int := 300000

/-- `rateConfig.maxWaitPerCycleMs`. -/
def maxWaitPerCycleMs : Int := 5000

/-- `rateConfig.firstMessageWaitMs`. -/
def firstMessageWaitMs : Int := 100

/-- `rateConfig.minWaitMs`. -/
def minWaitMs : Int := 1000

/-- Limiter state as built by the constructor for a given
configuration. -/
def initLimiter (maxMessages : Nat) (intervalMs burstPauseMs : Int) : RateLimiter :=
  { maxMessages := maxMessages
    messageIntervalMs := intervalMs
    burstPauseMs := burstPauseMs
    sentMessages := []
    lastSentTime := 0
    burstStartTime := 0
    isFirstRun := true }

/-- `RateLimiter.cleanupOldSends` (rate.js lines 38-57): drop
timestamps older than the burst window, fully auto-reset after a pause
longer than `burstPauseMs`, and re-enter first-run mode when the list
is empty and the idle gap exceeds `autoResetThresholdMs`. -/
def cleanupOldSends (rl : RateLimiter) (now : Int) : RateLimiter :=
  let cutoff := now - rl.burstPauseMs
  let rl1 := { rl with sentMessages := rl.sentMessages.filter (fun ts => ts > cutoff) }
  let rl2 :=
    if rl1.lastSentTime > 0 ∧ now - rl1.lastSentTime > rl1.burstPauseMs then
      { rl1 with sentMessages := [], burstStartTime := 0, lastSentTime := 0, isFirstRun := true }
    else rl1
  if rl2.sentMessages.length = 0 ∧ now - rl2.lastSentTime > autoResetThresholdMs then
    { rl2 with isFirstRun := true }
  else rl2

/-- `RateLimiter.canSendNow` (rate.js lines 59-78).  Returns the
decision together with the state, because the burst-expiry branch
clears the timestamp list in place. -/
def canSendNow (rl : RateLimiter) (now : Int) : Bool × RateLimiter :=
  let rl := cleanupOldSends rl now
  if rl.isFirstRun ∧ rl.sentMessages.length < rl.maxMessages then (true, rl)
  else if rl.sentMessages.length = 0 then (true, rl)
  else if now - rl.lastSentTime < rl.messageIntervalMs then (false, rl)
  else if rl.sentMessages.length ≥ rl.maxMessages then
    if now - rl.burstStartTime < rl.burstPauseMs then (false, rl)
    else (true, { rl with sentMessages := [], burstStartTime := 0, lastSentTime := 0 })
  else (true, rl)

/-- `RateLimiter.tryConsume` (rate.js lines 80-104). -/
def tryConsume (rl : RateLimiter) (now : Int) : Bool × RateLimiter :=
  match canSendNow rl now with
  | (false, rl1) => (false, rl1)
  | (true, rl1) =>
    let sent := rl1.sentMessages ++ [now]
    let rl2 := { rl1 with sentMessages := sent, lastSentTime := now }
    let rl3 := if sent.length = 1 then { rl2 with burstStartTime := now } else rl2
    let rl4 :=
      if rl3.isFirstRun ∧ rl3.sentMessages.length ≥ rl3.maxMessages then
        { rl3 with isFirstRun := false }
      else rl3
    (true, rl4)

/-- One `tryConsume` call per element of `times`, recording for each
call its time, whether the limiter was in first-run mode when invoked,
and whether the call succeeded. -/
def limiterRun (rl : RateLimiter) (times : List Int) : RateLimiter × List (Int × Bool × Bool) :=
  times.foldl
    (fun acc t =>
      let r := tryConsume acc.1 t
      (r.2, acc.2 ++ [(t, acc.1.isFirstRun, r.1)]))
    (rl, [])

/-- The wait computed by `waitForToken` before the next retry (rate.js
lines 112-131), including the cap at `maxWaitPerCycleMs`. -/
def computeWaitSlice (rl : RateLimiter) (now : Int) : Int :=
  let waitTime :=
    if rl.sentMessages.length = 0 then firstMessageWaitMs
    else if rl.sentMessages.length < rl.maxMessages then
      max minWaitMs (rl.messageIntervalMs - (now - rl.lastSentTime))
    else max minWaitMs (rl.burstPauseMs - (now - rl.burstStartTime))
  min waitTime maxWaitPerCycleMs

theorem computeWaitSlice_pos (rl : RateLimiter) (now : Int) :
    firstMessageWaitMs ≤ computeWaitSlice rl now := by
  unfold computeWaitSlice firstMessageWaitMs minWaitMs maxWaitPerCycleMs
  refine le_min ?_ (by norm_num)
  split
  · exact le_refl _
  · split
    · exact le_trans (by norm_num) (le_max_left _ _)
    · exact le_trans (by norm_num) (le_max_left _ _)

/-- `RateLimiter.waitForToken` (rate.js lines 106-139): retry
`tryConsume` until success or timeout, sleeping the computed slice
between attempts.  The cooperative sleep is modelled by advancing the
clock by exactly the requested slice.  Returns the outcome, the final
limiter state and the time at which the loop ended. -/
def waitForTokenF (fuel : Nat) (rl : RateLimiter) (startTime timeoutMs now : Int) :
    Bool × RateLimiter × Int :=
  match fuel with
  | 0 => (false, rl, now)
  | fuel + 1 =>
    if now - startTime < timeoutMs then
      match tryConsume rl now with
      | (true, rl1) => (true, rl1, now)
      | (false, rl1) => waitForTokenF fuel rl1 startTime timeoutMs (now + computeWaitSlice rl1 now)
    else (false, rl, now)

/-- The loop of `waitForToken` makes at most one attempt per
`firstMessageWaitMs` of remaining budget (every sleep slice is at
least that long), so this fuel is enough for the recursion to run
until the deadline; exhausted fuel coincides with the loop exit. -/
def waitForToken (rl : RateLimiter) (startTime timeoutMs now : Int) :
    Bool × RateLimiter × Int :=
  waitForTokenF ((startTime + timeoutMs - now).toNat / 100 + 1) rl startTime timeoutMs now

/-- Contact lifecycle status (part_003 stores these as strings). -/
inductive ContactStatus where
  | pending
  | sent
  | skipped
  | failed
deriving DecidableEq, Repr

/-- A contact record of the JSON database (src/unnamed/part_003).  The
union of the fields written by `saveContact` and `addContact`; fields a
given writer leaves absent are `none` / defaults, as in the dynamic
objects.  String ids of `addContact` are represented by the timestamp
component that makes them unique. -/
structure Contact where
  id : Int
  contact_key : List Nat
  contact_type : ContactType
  tg_user_id : Option Int := none
  source_peer_id : Int := 0
  source_message_id : Int := 0
  sent_text : List Nat := []
  sent_at : Int := 0
  status : ContactStatus
  reason : Option (List Nat) := none
  lead_description : Option (List Nat) := none
  json_message_id : Option Int := none
  source_peer_name : List Nat := []
  category : List Nat := []
  confidence : Int := 0
deriving DecidableEq, Repr

/-- Aggregate counters of the JSON database. -/
structure DbStats where
  total : Int := 0
  sent : Int := 0
  skipped : Int := 0
  failed : Int := 0
deriving DecidableEq, Repr

/-- In-memory state of `JsonDatabase` (src/unnamed/part_003); file
persistence (`saveData`) rewrites this state, so it is the state
itself. -/
structure JsonDatabase where
  contacts : List Contact
  stats : DbStats
deriving DecidableEq, Repr

/-- Model of JS `String.prototype.includes`. -/
def jsIncludes (hay pat : List Nat) : Bool :=
  if pat.isPrefixOf hay then true
  else
    match hay with
    | [] => false
    | _ :: t => jsIncludes t pat

/-- `PERMANENT_FAILURE_PATTERNS` (src/unnamed/part_003 lines 9-15). -/
def PERMANENT_FAILURE_PATTERNS : List (List Nat) :=
  [strCodes "Cannot find any entity corresponding to",
    strCodes "USER_DEACTIVATED",
    strCodes "INPUT_USER_DEACTIVATED",
    strCodes "CHAT_WRITE_FORBIDDEN",
    strCodes "403"]

/-- The permanent-failure test of `requeueFailed`:
`contact.reason && PATTERNS.some(p => contact.reason.includes(p))`. -/
def isPermanentFailure (reason : Option (List Nat)) : Bool :=
  match reason with
  | none => false
  | some r => PERMANENT_FAILURE_PATTERNS.any (fun p => jsIncludes r p)

/-- `JsonDatabase.findContactByKey` (part_003 lines 81-83): first
record with the given key, or none. -/
def findContactByKey (db : JsonDatabase) (contactKey : List Nat) : Option Contact :=
  db.contacts.find? (fun c => c.contact_key == contactKey)

/-- `JsonDatabase.saveContact` (part_003 lines 85-109).  `now` stands
for `Date.now()` / `new Date()` on this call. -/
def saveContact (db : JsonDatabase) (c : Contact) (now : Int) : Contact × JsonDatabase :=
  let newContact : Contact :=
    { id := now
      contact_key := c.contact_key
      contact_type := c.contact_type
      tg_user_id := c.tg_user_id
      source_peer_id := c.source_peer_id
      source_message_id := c.source_message_id
      sent_text := c.sent_text
      sent_at := if c.sent_at ≠ 0 then c.sent_at else now
      status := c.status
      reason := c.reason
      lead_description := c.lead_description }
  (newContact,
    { db with
        contacts := db.contacts ++ [newContact]
        stats := { db.stats with total := db.stats.total + 1 } })

/-- `JsonDatabase.addContact` (part_003 lines 190-227), the path used
by the scanner callback in src/unnamed/part_006.  The status argument
is the JS `contact.status || 'pending'` default. -/
def addContact (db : JsonDatabase) (c : Contact) (status : Option ContactStatus) (now : Int) :
    Contact × JsonDatabase :=
  let newContact : Contact :=
    { c with id := now, status := status.getD ContactStatus.pending }
  let contacts := db.contacts ++ [newContact]
  (newContact,
    { db with
        contacts := contacts
        stats :=
          { db.stats with
              total := (contacts.length : Int) } })

/-- Helper for `updateContactStatus`: mutate the first record carrying
the key (the JS code mutates the object returned by `find`). -/
def updateFirstContact (cs : List Contact) (contactKey : List Nat)
    (status : ContactStatus) (reason : Option (List Nat)) (now : Int) : List Contact :=
  match cs with
  | [] => []
  | c :: t =>
    if c.contact_key == contactKey then
      { c with
          status := status
          reason := reason
          sent_at := if status = ContactStatus.sent then now else c.sent_at } :: t
    else c :: updateFirstContact t contactKey status reason now

/-- `JsonDatabase.updateContactStatus` (part_003 lines 111-126):
transition the first record with the key in place, bump the matching
counter; no-op when the key is absent. -/
def updateContactStatus (db : JsonDatabase) (contactKey : List Nat)
    (status : ContactStatus) (reason : Option (List Nat)) (now : Int) : JsonDatabase :=
  match findContactByKey db contactKey with
  | none => db
  | some _ =>
    { db with
        contacts := updateFirstContact db.contacts contactKey status reason now
        stats :=
          { db.stats with
              sent := if status = ContactStatus.sent then db.stats.sent + 1 else db.stats.sent
              skipped :=
                if status = ContactStatus.skipped then db.stats.skipped + 1 else db.stats.skipped
              failed :=
                if status = ContactStatus.failed then db.stats.failed + 1 else db.stats.failed } }

/-- Stable insertion of a contact after every earlier record with a
`sent_at` not exceeding its own. -/
def insertBySentAt (c : Contact) : List Contact → List Contact
  | [] => [c]
  | a :: t => if a.sent_at ≤ c.sent_at then a :: insertBySentAt c t else c :: a :: t

/-- Stable sort by ascending `sent_at` (JS `Array.prototype.sort` with
the numeric comparator is stable; equal keys keep their relative
order, which this left-to-right insertion preserves). -/
def sortBySentAt (l : List Contact) : List Contact :=
  l.foldl (fun acc c => insertBySentAt c acc) []

/-- `JsonDatabase.getContactsForSending` (part_003 lines 148-153):
pending records sorted by `sent_at` ascending, then
`slice(offset, offset + limit)`. -/
def getContactsForSending (db : JsonDatabase) (limit offset : Nat) : List Contact :=
  (((sortBySentAt (db.contacts.filter (fun c => c.status == ContactStatus.pending))).drop
      offset).take limit)

/-- The `for (const contact of this.data.contacts)` loop of
`JsonDatabase.requeueFailed` (part_003 lines 155-188).  `k` is the
position of the live array iterator; `splice` removes the current
element at its live index, so after a removal the iterator resumes one
past the element that slid into the removed slot (JS array-iterator
semantics).  Returns the surviving records, the number reset to
pending, and the number removed. -/
def requeueLoopF (fuel : Nat) (cs : List Contact) (k : Nat) (limit updated removed : Nat) :
    List Contact × Nat × Nat :=
  match fuel with
  | 0 => (cs, updated, removed)
  | fuel + 1 =>
    if h : k < cs.length then
      if limit ≤ updated then (cs, updated, removed)
      else
        let c := cs.get ⟨k, h⟩
        if c.status = ContactStatus.failed then
          if isPermanentFailure c.reason then
            requeueLoopF fuel (cs.eraseIdx k) (k + 1) limit updated (removed + 1)
          else
            requeueLoopF fuel (cs.set k { c with status := ContactStatus.pending, reason := none })
              (k + 1) limit (updated + 1) removed
        else requeueLoopF fuel cs (k + 1) limit updated removed
    else (cs, updated, removed)

/-- The loop over the live array, entered with fuel `cs.length - k`:
every iteration increases `k` while never lengthening the array, so
the fuel is an upper bound on the remaining iterations and exhausted
fuel coincides with the `k ≥ length` loop exit. -/
def requeueLoop (cs : List Contact) (k : Nat) (limit updated removed : Nat) :
    List Contact × Nat × Nat :=
  requeueLoopF (cs.length - k) cs k limit updated removed

/-- `JsonDatabase.requeueFailed` (part_003 lines 155-188): returns the
new state and the count of records reset to pending (the JS return
value counts only `updated`, not removals). -/
def requeueFailed (db : JsonDatabase) (limit : Nat) : JsonDatabase × Nat :=
  let r := requeueLoop db.contacts 0 limit 0 0
  ({ db with contacts := r.1 }, r.2.1)

/-- One value of the sent-contacts map
(src/sender/src/core/sent-history.js). -/
structure SentEntry where
  first_sent : Int
  last_sent : Int
  count : Nat
  source_message_ids : List Int
  marked_as_processed : Bool := false
deriving DecidableEq, Repr

/-- In-memory state of `SentHistory`: the `sent_contacts` object,
keyed by normalized contact key (written through on every mutation). -/
structure SentHistory where
  sentContacts : List (List Nat × SentEntry)
deriving DecidableEq, Repr

/-- Object-property lookup on the sent-contacts map. -/
def sentLookup (h : SentHistory) (normalizedKey : List Nat) : Option SentEntry :=
  (h.sentContacts.find? (fun p => p.1 == normalizedKey)).map (fun p => p.2)

/-- `SentHistory.isAlreadySent` (sent-history.js lines 77-82). -/
def isAlreadySent (h : SentHistory) (contactKey : List Nat) : Bool :=
  match sentLookup h (normalizeContactKey contactKey) with
  | none => false
  | some e => e.count > 0 || e.marked_as_processed

/-- Replace the value of an existing key of the sent-contacts map. -/
def sentReplace (m : List (List Nat × SentEntry)) (key : List Nat) (e : SentEntry) :
    List (List Nat × SentEntry) :=
  m.map (fun p => if p.1 == key then (p.1, e) else p)

/-- `SentHistory.recordSent` (sent-history.js lines 89-113). -/
def recordSent (h : SentHistory) (contactKey : List Nat) (sourceMessageId now : Int) :
    SentHistory :=
  let nk := normalizeContactKey contactKey
  match sentLookup h nk with
  | some e =>
    { sentContacts :=
        sentReplace h.sentContacts nk
          { e with
              last_sent := now
              count := e.count + 1
              source_message_ids := e.source_message_ids ++ [sourceMessageId] } }
  | none =>
    { sentContacts :=
        h.sentContacts ++
          [(nk,
            { first_sent := now
              last_sent := now
              count := 1
              source_message_ids := [sourceMessageId] })] }

/-- `ContactDeduper.registerContact`
(src/sender/src/outreach/dedupe.js lines 55-103): normalize, return the
existing record if present, otherwise save a new record — with
hard-coded status `sent` and the normalized key and type. -/
def registerContact (db : JsonDatabase) (cfg : DedupeConfig) (contactKey : List Nat)
    (sourcePeerId sourceMessageId : Int) (sentText : List Nat) (tgUserId : Option Int)
    (leadDescription : Option (List Nat)) (now : Int) : Contact × JsonDatabase :=
  let normalized := normalizeContact contactKey cfg
  match findContactByKey db normalized.1 with
  | some existingContact => (existingContact, db)
  | none =>
    saveContact db
      { id := 0
        contact_key := normalized.1
        contact_type := normalized.2
        tg_user_id := tgUserId
        source_peer_id := sourcePeerId
        source_message_id := sourceMessageId
        sent_text := sentText
        status := ContactStatus.sent
        lead_description := leadDescription }
      now

/-- `ContactDeduper.updateContactStatus` (dedupe.js lines 105-123):
normalize the key, then delegate to the database. -/
def deduperUpdateContactStatus (db : JsonDatabase) (cfg : DedupeConfig) (contactKey : List Nat)
    (status : ContactStatus) (reason : Option (List Nat)) (now : Int) : JsonDatabase :=
  updateContactStatus db (normalizeContact contactKey cfg).1 status reason now

/-- Result shape produced by `sendToContact` (the fields
`processNextTask` inspects). -/
structure SendResult where
  success : Bool
  error : Option (List Nat)
deriving DecidableEq, Repr

/-- The external collaborators of the sender cycle: the message
composer (an AI call that either yields text or fails with an error
message, src/sender/src/outreach/composer.js) and the Telegram delivery
client (src/sender/src/telegram/clientSender.js), specified at their
interfaces. -/
structure Collaborators where
  composeMessage : List Nat → Except (List Nat) (List Nat)
  getUserInfo : List Nat → Bool
  sendMessage : List Nat → List Nat → SendResult

/-- The literal skip reason used by the duplicate guard. -/
def DUPLICATE_CONTACT : List Nat := strCodes "DUPLICATE_CONTACT"

/-- The error recorded when `getUserInfo` cannot resolve the contact
(send.js line 280). -/
def entityNotFoundReason (contactKey : List Nat) : List Nat :=
  strCodes "Cannot find any entity corresponding to \"" ++ contactKey ++ strCodes "\""

/-- `OutreachSender.sendToContact` (src/sender/src/outreach/send.js
lines 203-325).  Returns the result, the updated database and sent
history, and the list of contact keys passed to
`senderClient.sendMessage` during the call.  Reports, logging and the
checkpoint write are outside the claims and elided. -/
def sendToContact (db : JsonDatabase) (hist : SentHistory) (collab : Collaborators)
    (cfg : DedupeConfig) (c : Contact) (now : Int) :
    SendResult × JsonDatabase × SentHistory × List (List Nat) :=
  if isAlreadySent hist c.contact_key then
    let db1 :=
      deduperUpdateContactStatus db cfg c.contact_key ContactStatus.skipped
        (some DUPLICATE_CONTACT) now
    ({ success := false, error := some DUPLICATE_CONTACT }, db1, hist, [])
  else
    match collab.composeMessage c.contact_key with
    | Except.error e => ({ success := false, error := some e }, db, hist, [])
    | Except.ok text =>
      if collab.getUserInfo c.contact_key = false then
        ({ success := false, error := some (entityNotFoundReason c.contact_key) }, db, hist, [])
      else
        let r := collab.sendMessage c.contact_key text
        let hist1 :=
          if r.success then recordSent hist c.contact_key c.source_message_id now else hist
        (r, db, hist1, [c.contact_key])

/-- Outcome of one `processNextTask` cycle: the returned boolean, the
final stores, the delivery calls made, and the `sendToContact` result
the cycle acted on. -/
structure CycleOutcome where
  processed : Bool
  db : JsonDatabase
  history : SentHistory
  sendCalls : List (List Nat)
  result : Option SendResult
deriving Repr

/-- `sendConfig.contactsBatchSize`. -/
def contactsBatchSize : Nat := 10

/-- `sendConfig.requeueBatchSize`. -/
def requeueBatchSize : Nat := 50

/-- `OutreachSender.processNextTask` (send.js lines 137-201): fetch
pending contacts (requeueing failed ones when none are pending), take
the first, run `sendToContact`; on a duplicate result mark the contact
skipped, otherwise commit `sent`/`failed` with the captured error. -/
def processNextTask (db : JsonDatabase) (hist : SentHistory) (collab : Collaborators)
    (cfg : DedupeConfig) (now : Int) : CycleOutcome :=
  let contacts := getContactsForSending db contactsBatchSize 0
  let fetched :=
    if contacts.isEmpty then
      let r := requeueFailed db requeueBatchSize
      if r.2 > 0 then (r.1, getContactsForSending r.1 contactsBatchSize 0) else (r.1, contacts)
    else (db, contacts)
  match fetched.2.head? with
  | none => { processed := false, db := fetched.1, history := hist, sendCalls := [], result := none }
  | some contact =>
    let s := sendToContact fetched.1 hist collab cfg contact now
    if s.1.error == some DUPLICATE_CONTACT then
      let db2 :=
        deduperUpdateContactStatus s.2.1 cfg contact.contact_key ContactStatus.skipped
          (some DUPLICATE_CONTACT) now
      { processed := true, db := db2, history := s.2.2.1, sendCalls := s.2.2.2,
        result := some s.1 }
    else
      let db2 :=
        deduperUpdateContactStatus s.2.1 cfg contact.contact_key
          (if s.1.success then ContactStatus.sent else ContactStatus.failed) s.1.error now
      { processed := true, db := db2, history := s.2.2.1, sendCalls := s.2.2.2,
        result := some s.1 }

/-- A feed entry as seen by the ingestion scanner
(src/sender/src/core/json-scanner.js).  The deny-list test and contact
extraction are complex pure computations on the entry; for the
watermark claims they are abstracted into their outcomes: whether the
entry is denied, and the list of extracted contact keys that pass the
duplicate check. -/
structure FeedMessage where
  id : Int
  denied : Bool
  contacts : List (List Nat)
deriving DecidableEq, Repr

/-- Scanner progress state: the in-memory `lastProcessedId`, the value
persisted in the progress file (`saveLastProcessedId`, json-scanner.js
lines 400-413), and the contacts handed to `onContactFound`. -/
structure ScannerState where
  memoryId : Int
  persistedId : Int
  handled : List (Int × List Nat)
deriving DecidableEq, Repr

/-- `messages.filter(msg => msg.id > this.lastProcessedId)`
(json-scanner.js line 116). -/
def newFeedBatch (msgs : List FeedMessage) (lastId : Int) : List FeedMessage :=
  msgs.filter (fun m => lastId < m.id)

/-- One iteration of the `for (const message of newMessages)` loop of
`performScan` (json-scanner.js lines 126-186): handle the entry (denied
entries contribute no contacts), then advance the in-memory
`lastProcessedId` — the persisted value is not touched here. -/
def processFeedEntry (st : ScannerState) (m : FeedMessage) : ScannerState :=
  if m.denied then { st with memoryId := m.id }
  else
    { st with
        handled := st.handled ++ m.contacts.map (fun c => (m.id, c))
        memoryId := m.id }

/-- `JsonScanner.performScan` (json-scanner.js lines 105-196) run to
completion: process every entry of the new batch, then persist the
in-memory watermark once (`saveLastProcessedId` is called a single
time, after the loop; an empty batch returns before any persist). -/
def performScan (st : ScannerState) (msgs : List FeedMessage) : ScannerState :=
  let batch := newFeedBatch msgs st.memoryId
  if batch.isEmpty then st
  else
    let st1 := batch.foldl processFeedEntry st
    { st1 with persistedId := st1.memoryId }

/-- `performScan` interrupted by a crash after `j` entries of the
batch have been fully handled (the process dies during entry `j`); the
final persist is never reached. -/
def performScanCrashAt (st : ScannerState) (msgs : List FeedMessage) (j : Nat) : ScannerState :=
  let batch := newFeedBatch msgs st.memoryId
  (batch.take j).foldl processFeedEntry st

/-- Process restart: `loadLastProcessedId` reads the persisted
watermark back into memory (json-scanner.js lines 386-398); previously
handled contacts survive in the database. -/
def restartScanner (st : ScannerState) : ScannerState :=
  { memoryId := st.persistedId, persistedId := st.persistedId, handled := st.handled }

/-! ### Claim statements taken verbatim from the specification -/

/-- Claim C3 as stated: registering a fresh contact creates its record
with initial status `pending`. -/
def registerCreatesPendingProp : Prop :=
  ∀ (db : JsonDatabase) (cfg : DedupeConfig) (key : List Nat) (peerId msgId : Int)
    (text : List Nat) (tgid : Option Int) (desc : Option (List Nat)) (now : Int),
    findContactByKey db (normalizeContact key cfg).1 = none →
    (registerContact db cfg key peerId msgId text tgid desc now).1.status =
      ContactStatus.pending

/-- Claim C5 as stated: both contact-key normalizations are idempotent
on every key. -/
def normalizeIdempotentProp : Prop :=
  ∀ k : List Nat,
    normalizeContactKey (normalizeContactKey k) = normalizeContactKey k ∧
    (normalizeContact (normalizeContact k prodDedupe).1 prodDedupe).1 =
      (normalizeContact k prodDedupe).1

/-- A database used in the C3 refutation: empty ledger. -/
def emptyDb : JsonDatabase := { contacts := [], stats := {} }

/-- The times of successful `tryConsume` calls made while the limiter
was past the first-run regime, extracted from a `limiterRun` log. -/
def steadySuccessTimes (log : List (Int × Bool × Bool)) : List Int :=
  (log.filter (fun e => !e.2.1 && e.2.2)).map (fun e => e.1)

/-- Number of timestamps falling in the sliding half-open window
`(t, t + len]`. -/
def countInWindow (ts : List Int) (t len : Int) : Nat :=
  (ts.filter (fun x => decide (t < x) && decide (x ≤ t + len))).length

/-- Clock times of successive calls never decrease. -/
def nondecreasing : List Int → Bool
  | [] => true
  | [_] => true
  | a :: b :: t => decide (a ≤ b) && nondecreasing (b :: t)

/-- Claim C1 as stated: for every call sequence with nondecreasing
times, the successful consumptions made past the first-run regime
number at most `maxMessages` in any sliding `burstPauseMs` window. -/
def rateSlidingWindowProp : Prop :=
  ∀ (maxMessages : Nat) (intervalMs burstPauseMs : Int) (times : List Int) (t : Int),
    1 ≤ maxMessages → 0 < intervalMs → 0 < burstPauseMs →
    nondecreasing times = true →
    countInWindow
      (steadySuccessTimes (limiterRun (initLimiter maxMessages intervalMs burstPauseMs) times).2)
      t burstPauseMs ≤ maxMessages

/-- Claim C2 as stated: a cycle that picks a pending contact already in
the sent history reports work done, makes no delivery call, and leaves
the contact `skipped` in the contact DB. -/
def senderDuplicateSkipProp : Prop :=
  ∀ (db : JsonDatabase) (hist : SentHistory) (collab : Collaborators) (now : Int) (c : Contact),
    (getContactsForSending db contactsBatchSize 0).head? = some c →
    isAlreadySent hist c.contact_key = true →
    (processNextTask db hist collab prodDedupe now).processed = true ∧
    (processNextTask db hist collab prodDedupe now).sendCalls = [] ∧
    ∃ c2 ∈ (processNextTask db hist collab prodDedupe now).db.contacts,
      c2.contact_key = c.contact_key ∧ c2.status = ContactStatus.skipped

/-- Claim C4 as stated: `requeueFailed` deletes (rather than requeues)
every failed record whose reason matches a permanent-failure
pattern. -/
def requeuePermanentDeletedProp : Prop :=
  ∀ (db : JsonDatabase) (limit : Nat) (c : Contact),
    c ∈ db.contacts → c.status = ContactStatus.failed → isPermanentFailure c.reason = true →
    c ∉ (requeueFailed db limit).1.contacts

/-- Claim C6 as stated: a crash mid-entry causes at most re-processing
of that one entry on restart, so no entry fully handled before the
crash is processed again. -/
def scannerWatermarkProp : Prop :=
  ∀ (msgs : List FeedMessage) (st : ScannerState) (j : Nat),
    st.persistedId = st.memoryId →
    j < (newFeedBatch msgs st.memoryId).length →
    ∀ m ∈ (newFeedBatch msgs st.memoryId).take j,
      m ∉ newFeedBatch msgs (restartScanner (performScanCrashAt st msgs j)).memoryId

/-! ### Concrete states used by refutations and witnesses -/

/-- A failed contact whose reason matches `USER_DEACTIVATED`. -/
def permContactA : Contact :=
  { id := 1, contact_key := strCodes "aaa", contact_type := ContactType.username,
    status := ContactStatus.failed, reason := some (strCodes "USER_DEACTIVATED") }

/-- A second failed contact with a permanent reason. -/
def permContactB : Contact :=
  { id := 2, contact_key := strCodes "bbb", contact_type := ContactType.username,
    status := ContactStatus.failed, reason := some (strCodes "INPUT_USER_DEACTIVATED") }

/-- A third failed contact with a permanent reason. -/
def permContactC : Contact :=
  { id := 3, contact_key := strCodes "ccc", contact_type := ContactType.username,
    status := ContactStatus.failed, reason := some (strCodes "CHAT_WRITE_FORBIDDEN") }

/-- A fourth failed contact with a permanent reason. -/
def permContactD : Contact :=
  { id := 4, contact_key := strCodes "ddd", contact_type := ContactType.username,
    status := ContactStatus.failed, reason := some (strCodes "403 FORBIDDEN") }

/-- A failed contact with a transient reason (matches no pattern). -/
def transientContact : Contact :=
  { id := 5, contact_key := strCodes "ttt", contact_type := ContactType.username,
    status := ContactStatus.failed, reason := some (strCodes "Timeout") }

/-- Ledger with two adjacent permanent-failure records. -/
def dbPermPair : JsonDatabase := { contacts := [permContactA, permContactB], stats := {} }

/-- Ledger with four adjacent permanent-failure records. -/
def dbPermQuad : JsonDatabase :=
  { contacts := [permContactA, permContactB, permContactC, permContactD], stats := {} }

/-- Ledger with one transient-failure and one permanent-failure
record. -/
def dbMixed : JsonDatabase := { contacts := [transientContact, permContactA], stats := {} }

/-- A pending contact whose stored key is not normalization-fixed
(uppercase letters), as produced by the scanner callback path
(`extractAuthorFromMessageData` does not lowercase `authorUsername`,
and part_006 hands it to `addContact` unchanged). -/
def pendingIvanUpper : Contact :=
  { id := 10, contact_key := strCodes "Ivan_Dev", contact_type := ContactType.username,
    status := ContactStatus.pending }

/-- A pending contact with a normalization-fixed key. -/
def pendingIvanLower : Contact :=
  { id := 11, contact_key := strCodes "ivan_dev", contact_type := ContactType.username,
    status := ContactStatus.pending }

/-- Ledger holding only `pendingIvanUpper`. -/
def dbUpperIvan : JsonDatabase := { contacts := [pendingIvanUpper], stats := {} }

/-- Ledger holding only `pendingIvanLower`. -/
def dbLowerIvan : JsonDatabase := { contacts := [pendingIvanLower], stats := {} }

/-- Sent history already containing the normalized key ivan_dev. -/
def histIvan : SentHistory :=
  { sentContacts :=
      [(strCodes "ivan_dev",
        { first_sent := 1, last_sent := 1, count := 1, source_message_ids := [7] })] }

/-- Collaborators whose behaviour is irrelevant to the duplicate-guard
path (it must not be consulted there). -/
def collabTrivial : Collaborators :=
  { composeMessage := fun _ => Except.ok (strCodes "hello")
    getUserInfo := fun _ => true
    sendMessage := fun _ _ => { success := true, error := none } }

/-- Ledger for the C4 scenario: one pending contact that will fail
with USER_DEACTIVATED. -/
def c4ScenarioDb : JsonDatabase :=
  { contacts :=
      [{ id := 20, contact_key := strCodes "ivan_dev", contact_type := ContactType.username,
         status := ContactStatus.pending }],
    stats := {} }

/-- A limiter in mid-burst, used to exhibit a `waitForToken`
timeout. -/
def rlBusy : RateLimiter :=
  { maxMessages := 3, messageIntervalMs := 60000, burstPauseMs := 900000,
    sentMessages := [10, 20, 30], lastSentTime := 30, burstStartTime := 10, isFirstRun := false }

/-- A two-entry feed used for the scanner watermark claim. -/
def feedPair : List FeedMessage :=
  [{ id := 1, denied := false, contacts := [strCodes "alice"] },
    { id := 2, denied := false, contacts := [strCodes "bob"] }]

/-- A freshly started scanner (memory and persisted watermark agree). -/
def scannerStart : ScannerState := { memoryId := 0, persistedId := 0, handled := [] }

/-! ### Helper lemmas -/

theorem isPermanentFailure_none : isPermanentFailure none = false := rfl

theorem requeueLoopF_updated_le (fuel : Nat) :
    ∀ (cs : List Contact) (k limit updated removed : Nat), updated ≤ limit →
      (requeueLoopF fuel cs k limit updated removed).2.1 ≤ limit := by
  induction fuel with
  | zero =>
    intro cs k limit updated removed h
    simpa [requeueLoopF] using h
  | succ fuel ih =>
    intro cs k limit updated removed h
    rw [requeueLoopF]
    dsimp only
    split
    · split
      · exact h
      · split
        · split
          · exact ih _ _ _ _ _ h
          · exact ih _ _ _ _ _ (by omega)
        · exact ih _ _ _ _ _ h
    · exact h

theorem requeueLoopF_mem_of_permanent (fuel : Nat) :
    ∀ (cs : List Contact) (k limit updated removed : Nat) (c : Contact),
      c ∈ (requeueLoopF fuel cs k limit updated removed).1 →
      isPermanentFailure c.reason = true → c ∈ cs := by
  induction fuel with
  | zero =>
    intro cs k limit updated removed c hc _
    simpa [requeueLoopF] using hc
  | succ fuel ih =>
    intro cs k limit updated removed c hc hperm
    rw [requeueLoopF] at hc
    dsimp only at hc
    split at hc
    · split at hc
      · exact hc
      · split at hc
        · split at hc
          · exact (List.eraseIdx_sublist cs k).mem (ih _ _ _ _ _ c hc hperm)
          · rcases List.mem_or_eq_of_mem_set (ih _ _ _ _ _ c hc hperm) with hmem | heq
            · exact hmem
            · rw [heq] at hperm
              simp [isPermanentFailure] at hperm
        · exact ih _ _ _ _ _ c hc hperm
    · exact hc

theorem requeueLoop_updated_le (cs : List Contact) (k limit updated removed : Nat)
    (h : updated ≤ limit) : (requeueLoop cs k limit updated removed).2.1 ≤ limit :=
  requeueLoopF_updated_le (cs.length - k) cs k limit updated removed h

theorem requeueLoop_mem_of_permanent (cs : List Contact) (k limit updated removed : Nat) :
    ∀ c : Contact, c ∈ (requeueLoop cs k limit updated removed).1 →
      isPermanentFailure c.reason = true → c ∈ cs :=
  fun c hc hperm =>
    requeueLoopF_mem_of_permanent (cs.length - k) cs k limit updated removed c hc hperm

/-! ### Claim C9 -/

/-- C9: work-window containment handles midnight wrap-around: with
start 22:00 and end 06:00, the time 23:30 is inside the window and
12:00 is outside (`isInWorkWindow`). -/
theorem C9_work_window_wraparound :
    isInWorkWindow (strCodes "22:00") (strCodes "06:00") (23 * 60 + 30) = true ∧
    isInWorkWindow (strCodes "22:00") (strCodes "06:00") (12 * 60) = false := by
  exact ⟨by decide, by decide⟩

/-! ### Claim C3 -/

/-- C3 counterexample: registering a fresh contact does not create it
with status `pending` — on an empty ledger `registerContact` stores the
record with status `sent` (dedupe.js line 84), refuting the claim as
stated. -/
theorem C3_register_pending_refuted : ¬ registerCreatesPendingProp := by
  intro hp
  have h := hp emptyDb prodDedupe (strCodes "ivan_dev") 0 0 [] none none 99 (by decide)
  exact absurd h (by decide)

/-- C3 amended: `registerContact` creates a fresh record with status
`sent` (hard-coded); contacts enter the ledger as `pending` through the
scanner callback path `addContact`, whose status defaults to
`pending`. -/
theorem C3_register_status :
    (∀ (db : JsonDatabase) (cfg : DedupeConfig) (key : List Nat) (peerId msgId : Int)
        (text : List Nat) (tgid : Option Int) (desc : Option (List Nat)) (now : Int),
      findContactByKey db (normalizeContact key cfg).1 = none →
      (registerContact db cfg key peerId msgId text tgid desc now).1.status =
        ContactStatus.sent) ∧
    (∀ (db : JsonDatabase) (c : Contact) (st : Option ContactStatus) (now : Int),
      st = none ∨ st = some ContactStatus.pending →
      (addContact db c st now).1.status = ContactStatus.pending) := by
  constructor
  · intro db cfg key peerId msgId text tgid desc now h
    simp only [registerContact, h]
    rfl
  · intro db c st now h
    rcases h with h | h <;> rw [h] <;> rfl

/-- Witness for C3: concrete instances of both parts. -/
theorem C3_register_status_witness :
    findContactByKey emptyDb (normalizeContact (strCodes "ivan_dev") prodDedupe).1 = none ∧
    (registerContact emptyDb prodDedupe (strCodes "ivan_dev") 0 0 [] none none 99).1.status =
      ContactStatus.sent ∧
    (addContact emptyDb pendingIvanLower none 99).1.status = ContactStatus.pending :=
  ⟨by decide,
    C3_register_status.1 emptyDb prodDedupe (strCodes "ivan_dev") 0 0 [] none none 99 (by decide),
    C3_register_status.2 emptyDb pendingIvanLower none 99 (Or.inl rfl)⟩

/-! ### Claim C4 -/

/-- C4 counterexample: with two adjacent permanent-failure records,
`requeueFailed` deletes the first but — because `splice` removes the
current element of the live array mid-iteration — skips the second,
which survives the call still `failed`; so the claim that such a record
is deleted does not hold as stated. -/
theorem C4_permanent_delete_refuted : ¬ requeuePermanentDeletedProp := by
  intro hp
  exact hp dbPermPair 10 permContactB (by decide) (by decide) (by decide) (by decide)

/-- C4 amended: `requeueFailed` never transitions a permanent-failure
record back to `pending` — every record with a permanent-matching
reason found in the output was already present, unchanged, in the
input (resets always clear the reason) — and in the USER_DEACTIVATED
scenario with a single such record the subsequent `requeueFailed` call
deletes it and counts no requeue; but a record immediately following a
deleted one is skipped in that pass and may survive until a later
pass. -/
theorem C4_permanent_never_requeued :
    (∀ (db : JsonDatabase) (limit : Nat) (c : Contact),
      c ∈ (requeueFailed db limit).1.contacts → isPermanentFailure c.reason = true →
      c ∈ db.contacts) ∧
    ((requeueFailed
        (updateContactStatus c4ScenarioDb (strCodes "ivan_dev") ContactStatus.failed
          (some (strCodes "USER_DEACTIVATED")) 5) 10).1.contacts = [] ∧
      (requeueFailed
        (updateContactStatus c4ScenarioDb (strCodes "ivan_dev") ContactStatus.failed
          (some (strCodes "USER_DEACTIVATED")) 5) 10).2 = 0) := by
  refine ⟨fun db limit c hc hperm => ?_, by decide, by decide⟩
  exact requeueLoop_mem_of_permanent db.contacts 0 limit 0 0 c hc hperm

/-- Witness for C4: the surviving permanent record of the pair ledger
satisfies the hypotheses, and the theorem places it in the input
ledger. -/
theorem C4_permanent_never_requeued_witness :
    permContactB ∈ (requeueFailed dbPermPair 10).1.contacts ∧
    isPermanentFailure permContactB.reason = true ∧
    permContactB ∈ dbPermPair.contacts :=
  ⟨by decide, by decide,
    C4_permanent_never_requeued.1 dbPermPair 10 permContactB (by decide) (by decide)⟩

/-! ### Claim C10 -/

/-- C10: the `limit` of `requeueFailed` bounds only the number of
records reset to pending (the returned count never exceeds it);
permanent-failure deletions bypass the limit — four adjacent permanent
records with limit one lose two records while zero is returned — and
the returned value counts only resets, as the mixed ledger shows (one
reset counted, the deletion not). -/
theorem C10_requeue_limit_semantics :
    (∀ (db : JsonDatabase) (limit : Nat), (requeueFailed db limit).2 ≤ limit) ∧
    (dbPermQuad.contacts.length - (requeueFailed dbPermQuad 1).1.contacts.length = 2 ∧
      (requeueFailed dbPermQuad 1).2 = 0) ∧
    ((requeueFailed dbMixed 10).2 = 1 ∧
      (requeueFailed dbMixed 10).1.contacts =
        [{ transientContact with status := ContactStatus.pending, reason := none },
          permContactA].take 1) := by
  refine ⟨fun db limit => ?_, by decide, by decide, by decide⟩
  exact requeueLoop_updated_le db.contacts 0 limit 0 0 (Nat.zero_le _)

/-! ### Claim C7 -/

/-- After saving a record whose key was absent, a lookup for that key
finds exactly the saved record. -/
theorem findContactByKey_saveContact (db : JsonDatabase) (c : Contact) (now : Int)
    (h : findContactByKey db c.contact_key = none) :
    findContactByKey (saveContact db c now).2 c.contact_key = some (saveContact db c now).1 := by
  unfold findContactByKey at h ⊢
  unfold saveContact
  simp only [List.find?_append, h, Option.none_or]
  simp [List.find?]

/-- C7: `registerContact` is idempotent — a second call with the same
key (whatever the other arguments) returns the same record as the
first and leaves the ledger unchanged, never creating a second
entry. -/
theorem C7_register_idempotent (db : JsonDatabase) (cfg : DedupeConfig) (key : List Nat)
    (p1 m1 : Int) (t1 : List Nat) (g1 : Option Int) (d1 : Option (List Nat)) (n1 : Int)
    (p2 m2 : Int) (t2 : List Nat) (g2 : Option Int) (d2 : Option (List Nat)) (n2 : Int) :
    (registerContact (registerContact db cfg key p1 m1 t1 g1 d1 n1).2 cfg key
        p2 m2 t2 g2 d2 n2).1 =
      (registerContact db cfg key p1 m1 t1 g1 d1 n1).1 ∧
    (registerContact (registerContact db cfg key p1 m1 t1 g1 d1 n1).2 cfg key
        p2 m2 t2 g2 d2 n2).2 =
      (registerContact db cfg key p1 m1 t1 g1 d1 n1).2 := by
  cases hfind : findContactByKey db (normalizeContact key cfg).1 with
  | some e =>
    constructor <;> simp only [registerContact, hfind]
  | none =>
    have hnew :=
      findContactByKey_saveContact db
        { id := 0
          contact_key := (normalizeContact key cfg).1
          contact_type := (normalizeContact key cfg).2
          tg_user_id := g1
          source_peer_id := p1
          source_message_id := m1
          sent_text := t1
          status := ContactStatus.sent
          lead_description := d1 }
        n1 hfind
    constructor <;> simp only [registerContact, hfind] <;> rw [hnew]

/-! ### Claim C5 -/

theorem jsLowerCode_idem (n : Nat) : jsLowerCode (jsLowerCode n) = jsLowerCode n := by
  unfold jsLowerCode
  split
  · rw [if_neg (by omega)]
  · rfl

theorem mem_jsTrim {a : Nat} {l : List Nat} (h : a ∈ jsTrim l) : a ∈ l := by
  unfold jsTrim at h
  rw [List.mem_reverse] at h
  have h2 : a ∈ (l.dropWhile isJsWs).reverse := (List.dropWhile_sublist _).mem h
  rw [List.mem_reverse] at h2
  exact (List.dropWhile_sublist _).mem h2

theorem mem_stripLeadAt {a : Nat} {l : List Nat} (h : a ∈ stripLeadAt l) : a ∈ l := by
  unfold stripLeadAt at h
  split at h
  · exact (List.tail_sublist l).mem h
  · exact h

theorem mem_lastSlashSegment {a : Nat} {l : List Nat} (h : a ∈ lastSlashSegment l) : a ∈ l := by
  unfold lastSlashSegment at h
  dsimp only at h
  split at h
  · exact h
  · rw [List.mem_reverse] at h
    have h2 := (List.takeWhile_sublist _).mem h
    rwa [List.mem_reverse] at h2

theorem jsLower_map_self {l : List Nat} (h : ∀ a ∈ l, jsLowerCode a = a) : jsLower l = l := by
  unfold jsLower
  conv_rhs => rw [show l = l.map id from (List.map_id l).symm]
  exact List.map_congr_left h

theorem mem_jsLower_fixed {a : Nat} {l : List Nat} (h : a ∈ jsLower l) : jsLowerCode a = a := by
  unfold jsLower at h
  rcases List.mem_map.mp h with ⟨b, _, rfl⟩
  exact jsLowerCode_idem b

theorem normalizeContactKey_lower_fixed (k : List Nat) :
    jsLower (normalizeContactKey k) = normalizeContactKey k := by
  apply jsLower_map_self
  intro a ha
  exact mem_jsLower_fixed (mem_jsTrim (mem_stripLeadAt ha))

theorem normalizeContact_key_lower_fixed_mem (k : List Nat) (cfg : DedupeConfig)
    (hl : cfg.lowercase = true) : ∀ a ∈ (normalizeContact k cfg).1, jsLowerCode a = a := by
  intro a ha
  unfold normalizeContact at ha
  rw [hl] at ha
  simp only [if_true] at ha
  split at ha <;> split at ha <;>
    first
      | exact mem_jsLower_fixed (mem_lastSlashSegment ha)
      | exact mem_jsLower_fixed ha

theorem head_not_at_of_stripLeadAt_eq {l : List Nat} (h : stripLeadAt l = l) :
    (l.head? == some 64) = false := by
  cases l with
  | nil => rfl
  | cons a t =>
    by_cases ha : a = 64
    · subst ha
      unfold stripLeadAt at h
      simp only [List.head?, List.tail_cons, beq_self_eq_true, if_true] at h
      exact absurd h.symm (List.cons_ne_self 64 t)
    · simp [List.head?, ha]

/-- C5 counterexample: neither normalization is idempotent on every
key — on the key consisting of two at signs and the letter a,
`normalizeContactKey` yields one value and a second application strips
a further at sign, so the claim fails as stated. -/
theorem C5_normalize_idempotent_refuted : ¬ normalizeIdempotentProp := by
  intro hp
  exact absurd ((hp (strCodes "@@a")).1) (by decide)

/-- C5 amended: both normalizations are idempotent on every key whose
normalized form is itself trimmed and free of a leading at sign (and,
for the dedupe normalizer, free of slashes) — the only keys escaping
this are those whose trimmed form begins with a doubled at sign or an
at sign followed by whitespace (respectively a slash segment starting
with an at sign), where a second application strips further. -/
theorem C5_normalize_idempotent_conditional :
    (∀ k : List Nat,
      jsTrim (normalizeContactKey k) = normalizeContactKey k →
      stripLeadAt (normalizeContactKey k) = normalizeContactKey k →
      normalizeContactKey (normalizeContactKey k) = normalizeContactKey k) ∧
    (∀ k : List Nat,
      jsTrim (normalizeContact k prodDedupe).1 = (normalizeContact k prodDedupe).1 →
      stripLeadAt (normalizeContact k prodDedupe).1 = (normalizeContact k prodDedupe).1 →
      (normalizeContact k prodDedupe).1.contains 47 = false →
      (normalizeContact (normalizeContact k prodDedupe).1 prodDedupe).1 =
        (normalizeContact k prodDedupe).1) := by
  constructor
  · intro k h1 h2
    have hlow := normalizeContactKey_lower_fixed k
    show stripLeadAt (jsTrim (jsLower (normalizeContactKey k))) = normalizeContactKey k
    rw [hlow, h1, h2]
  · intro k h1 h2 h3
    have hhead := head_not_at_of_stripLeadAt_eq h2
    have hlow : jsLower (normalizeContact k prodDedupe).1 = (normalizeContact k prodDedupe).1 :=
      jsLower_map_self (normalizeContact_key_lower_fixed_mem k prodDedupe rfl)
    generalize hq : (normalizeContact k prodDedupe).1 = q at h1 h2 h3 hhead hlow ⊢
    simp [normalizeContact, prodDedupe, h1, hhead, hlow, h3]
    rw [if_neg (by simpa using h3)]

/-- Witness for C5: both amended statements applied to concrete keys
whose normalized forms satisfy the side conditions. -/
theorem C5_normalize_idempotent_conditional_witness :
    (jsTrim (normalizeContactKey (strCodes " @Ivan_Dev ")) =
        normalizeContactKey (strCodes " @Ivan_Dev ") ∧
      stripLeadAt (normalizeContactKey (strCodes " @Ivan_Dev ")) =
        normalizeContactKey (strCodes " @Ivan_Dev ") ∧
      normalizeContactKey (normalizeContactKey (strCodes " @Ivan_Dev ")) =
        normalizeContactKey (strCodes " @Ivan_Dev ")) ∧
    ((normalizeContact (strCodes "t.me/Ivan_Dev") prodDedupe).1.contains 47 = false ∧
      (normalizeContact (normalizeContact (strCodes "t.me/Ivan_Dev") prodDedupe).1
          prodDedupe).1 =
        (normalizeContact (strCodes "t.me/Ivan_Dev") prodDedupe).1) :=
  ⟨⟨by decide, by decide,
      C5_normalize_idempotent_conditional.1 (strCodes " @Ivan_Dev ") (by decide) (by decide)⟩,
    ⟨by decide,
      C5_normalize_idempotent_conditional.2 (strCodes "t.me/Ivan_Dev") (by decide) (by decide)
        (by decide)⟩⟩

/-! ### Claim C1 -/

theorem cleanupOldSends_max (rl : RateLimiter) (now : Int) :
    (cleanupOldSends rl now).maxMessages = rl.maxMessages := by
  unfold cleanupOldSends
  dsimp only
  split <;> split <;> rfl

theorem cleanupOldSends_len_le (rl : RateLimiter) (now : Int) :
    (cleanupOldSends rl now).sentMessages.length ≤ rl.sentMessages.length := by
  unfold cleanupOldSends
  dsimp only
  split <;> split <;>
    first
      | exact List.length_filter_le _ _
      | simp

theorem cleanupOldSends_sublist (rl : RateLimiter) (now : Int) :
    List.Sublist (cleanupOldSends rl now).sentMessages rl.sentMessages := by
  unfold cleanupOldSends
  dsimp only
  split <;> split <;>
    first
      | exact List.nil_sublist _
      | exact List.filter_sublist _

theorem canSendNow_max (rl : RateLimiter) (now : Int) :
    (canSendNow rl now).2.maxMessages = rl.maxMessages := by
  have hm := cleanupOldSends_max rl now
  unfold canSendNow
  dsimp only
  split
  · exact hm
  · split
    · exact hm
    · split
      · exact hm
      · split
        · split
          · exact hm
          · exact hm
        · exact hm

theorem canSendNow_true_len (rl : RateLimiter) (now : Int) :
    (canSendNow rl now).1 = true →
    (canSendNow rl now).2.sentMessages.length < rl.maxMessages ∨
      (canSendNow rl now).2.sentMessages.length = 0 := by
  have hm := cleanupOldSends_max rl now
  unfold canSendNow
  dsimp only
  split
  · next hcond =>
    intro _
    left
    rw [← hm]
    exact hcond.2
  · split
    · next hzero =>
      intro _
      right
      exact hzero
    · split
      · intro hfalse
        exact absurd hfalse (by simp)
      · split
        · split
          · intro hfalse
            exact absurd hfalse (by simp)
          · intro _
            right
            rfl
        · next hlt =>
          intro _
          left
          dsimp only
          rw [← hm]
          omega

theorem canSendNow_false_state (rl : RateLimiter) (now : Int) :
    (canSendNow rl now).1 = false → (canSendNow rl now).2 = cleanupOldSends rl now := by
  unfold canSendNow
  dsimp only
  split
  · intro hfalse
    exact absurd hfalse (by simp)
  · split
    · intro hfalse
      exact absurd hfalse (by simp)
    · split
      · intro _
        rfl
      · split
        · split
          · intro _
            rfl
          · intro hfalse
            exact absurd hfalse (by simp)
        · intro hfalse
          exact absurd hfalse (by simp)

theorem tryConsume_spec (rl : RateLimiter) (now : Int) (hmax : 1 ≤ rl.maxMessages)
    (hlen : rl.sentMessages.length ≤ rl.maxMessages) :
    (tryConsume rl now).2.maxMessages = rl.maxMessages ∧
    (tryConsume rl now).2.sentMessages.length ≤ rl.maxMessages := by
  unfold tryConsume
  rcases hc : canSendNow rl now with ⟨b, r0⟩
  have hm : r0.maxMessages = rl.maxMessages := by
    have := canSendNow_max rl now
    rwa [hc] at this
  cases b with
  | false =>
    have hst : r0 = cleanupOldSends rl now := by
      have := canSendNow_false_state rl now (by rw [hc])
      rwa [hc] at this
    refine ⟨hm, ?_⟩
    rw [hst]
    exact le_trans (cleanupOldSends_len_le rl now) hlen
  | true =>
    have hl : r0.sentMessages.length < rl.maxMessages ∨ r0.sentMessages.length = 0 := by
      have := canSendNow_true_len rl now (by rw [hc])
      rwa [hc] at this
    dsimp only
    split <;> split <;>
      refine ⟨hm, ?_⟩ <;> simp only [List.length_append, List.length_cons, List.length_nil] <;>
        omega

theorem limiterRun_fst (rl : RateLimiter) (times : List Int) :
    (limiterRun rl times).1 = times.foldl (fun s t => (tryConsume s t).2) rl := by
  unfold limiterRun
  suffices h : ∀ (log : List (Int × Bool × Bool)) (rl : RateLimiter),
      (times.foldl
        (fun acc t =>
          let r := tryConsume acc.1 t
          (r.2, acc.2 ++ [(t, acc.1.isFirstRun, r.1)]))
        (rl, log)).1 =
        times.foldl (fun s t => (tryConsume s t).2) rl by
    exact h [] rl
  induction times with
  | nil =>
    intro log rl
    rfl
  | cons t ts ih =>
    intro log rl
    exact ih _ _

/-- C1 counterexample: with `maxMessages` three, interval 60000 ms and
`burstPauseMs` 900000 ms, the monotone call sequence 0, 60000, 120000,
900001, 960001, 1020001, 1080001 has every `tryConsume` succeed; the
last four successes are made past the first-run regime yet all fall in
one sliding 900000 ms window, because `cleanupOldSends` ages entries
out of the internal list mid-burst and the stale `burstStartTime`
makes the burst-pause check vacuous.  The claim is false as stated. -/
theorem C1_rate_sliding_window_refuted : ¬ rateSlidingWindowProp := by
  intro hp
  have h :=
    hp 3 60000 900000 [0, 60000, 120000, 900001, 960001, 1020001, 1080001] 900000
      (by decide) (by decide) (by decide) (by decide)
  exact absurd h (by decide)

/-- C1 amended: what the limiter does guarantee is the internal bound:
for every call sequence, the list of retained timestamps never exceeds
`maxMessages` entries (the constructor guarantees `maxMessages` is at
least one); the sliding-window bound on the full success history fails
once timestamps age out of the internal list. -/
theorem C1_rate_limiter_internal_bound (maxMessages : Nat) (intervalMs burstPauseMs : Int)
    (times : List Int) (hmax : 1 ≤ maxMessages) :
    ((limiterRun (initLimiter maxMessages intervalMs burstPauseMs) times).1).sentMessages.length ≤
      maxMessages := by
  rw [limiterRun_fst]
  have hinv : ∀ (ts : List Int) (rl : RateLimiter), rl.maxMessages = maxMessages →
      rl.sentMessages.length ≤ maxMessages →
      (ts.foldl (fun s t => (tryConsume s t).2) rl).maxMessages = maxMessages ∧
      (ts.foldl (fun s t => (tryConsume s t).2) rl).sentMessages.length ≤ maxMessages := by
    intro ts
    induction ts with
    | nil =>
      intro rl h1 h2
      exact ⟨h1, h2⟩
    | cons t ts ih =>
      intro rl h1 h2
      have hs := tryConsume_spec rl t (h1 ▸ hmax) (h1 ▸ h2)
      exact ih _ (by rw [hs.1, h1]) (h1 ▸ hs.2)
  exact (hinv times _ rfl (by simp [initLimiter])).2

/-- Witness for C1: the internal bound at the configuration and call
sequence of the refutation. -/
theorem C1_rate_limiter_internal_bound_witness :
    1 ≤ 3 ∧
    ((limiterRun (initLimiter 3 60000 900000)
        [0, 60000, 120000, 900001, 960001, 1020001, 1080001]).1).sentMessages.length ≤ 3 :=
  ⟨by decide,
    C1_rate_limiter_internal_bound 3 60000 900000
      [0, 60000, 120000, 900001, 960001, 1020001, 1080001] (by decide)⟩

/-! ### Claim C8 -/

theorem tryConsume_false_sublist (rl : RateLimiter) (now : Int)
    (h : (tryConsume rl now).1 = false) :
    List.Sublist (tryConsume rl now).2.sentMessages rl.sentMessages := by
  unfold tryConsume at h ⊢
  rcases hc : canSendNow rl now with ⟨b, r0⟩
  cases b with
  | true =>
    rw [hc] at h
    simp at h
  | false =>
    have hst := canSendNow_false_state rl now (by rw [hc])
    rw [hc] at hst
    dsimp only at hst ⊢
    rw [hst]
    exact cleanupOldSends_sublist rl now

theorem waitForTokenF_false (fuel : Nat) :
    ∀ (rl : RateLimiter) (startTime timeoutMs now : Int),
      startTime + timeoutMs - now ≤ 100 * fuel →
      (waitForTokenF fuel rl startTime timeoutMs now).1 = false →
      List.Sublist (waitForTokenF fuel rl startTime timeoutMs now).2.1.sentMessages
          rl.sentMessages ∧
      startTime + timeoutMs ≤ (waitForTokenF fuel rl startTime timeoutMs now).2.2 := by
  induction fuel with
  | zero =>
    intro rl s t now hbound _
    refine ⟨List.Sublist.refl _, ?_⟩
    simp only [waitForTokenF]
    omega
  | succ fuel ih =>
    intro rl s t now hbound hfalse
    rw [waitForTokenF] at hfalse ⊢
    by_cases hcond : now - s < t
    · rw [if_pos hcond] at hfalse ⊢
      rcases htc : tryConsume rl now with ⟨b, rl1⟩
      cases b with
      | true =>
        rw [htc] at hfalse
        simp at hfalse
      | false =>
        rw [htc] at hfalse
        dsimp only at hfalse ⊢
        have hsub := tryConsume_false_sublist rl now (by rw [htc])
        rw [htc] at hsub
        dsimp only at hsub
        have hstep := computeWaitSlice_pos rl1 now
        unfold firstMessageWaitMs at hstep
        have hrec := ih rl1 s t (now + computeWaitSlice rl1 now) (by omega) hfalse
        exact ⟨hrec.1.trans hsub, hrec.2⟩
    · rw [if_neg hcond] at hfalse ⊢
      refine ⟨List.Sublist.refl _, ?_⟩
      dsimp only
      omega

/-- C8: for every timeout value, a `waitForToken` call that returns
false has timed out — the loop end time is at least the start plus the
timeout — and has not consumed a token: the final timestamp list is a
sublist of the initial one (cleanup may only drop entries, never add).
The model is a total function, mirroring that the JS method never
throws. -/
theorem C8_waitForToken_timeout (rl : RateLimiter) (timeoutMs startTime : Int)
    (h : (waitForToken rl startTime timeoutMs startTime).1 = false) :
    List.Sublist (waitForToken rl startTime timeoutMs startTime).2.1.sentMessages
        rl.sentMessages ∧
    startTime + timeoutMs ≤ (waitForToken rl startTime timeoutMs startTime).2.2 := by
  unfold waitForToken at h ⊢
  apply waitForTokenF_false _ rl startTime timeoutMs startTime ?_ h
  omega

/-- Witness for C8: a limiter mid-burst with a 50 ms timeout times
out without extending its timestamp list. -/
theorem C8_waitForToken_timeout_witness :
    (waitForToken rlBusy 1000 50 1000).1 = false ∧
    (List.Sublist (waitForToken rlBusy 1000 50 1000).2.1.sentMessages rlBusy.sentMessages ∧
      (1000 : Int) + 50 ≤ (waitForToken rlBusy 1000 50 1000).2.2) :=
  ⟨by decide, C8_waitForToken_timeout rlBusy 50 1000 (by decide)⟩

/-! ### Claim C2 -/

theorem updateFirstContact_mem (key : List Nat) (st : ContactStatus)
    (r : Option (List Nat)) (now : Int) :
    ∀ cs : List Contact, (∃ c ∈ cs, c.contact_key = key) →
      ∃ c2 ∈ updateFirstContact cs key st r now,
        c2.contact_key = key ∧ c2.status = st ∧ c2.reason = r := by
  intro cs
  induction cs with
  | nil =>
    rintro ⟨c, hc, -⟩
    cases hc
  | cons a t ih =>
    intro h
    unfold updateFirstContact
    by_cases ha : (a.contact_key == key) = true
    · rw [if_pos ha]
      refine ⟨_, List.mem_cons_self _ _, ?_, rfl, rfl⟩
      exact eq_of_beq ha
    · rw [if_neg ha]
      rcases h with ⟨c, hc, hck⟩
      rcases List.mem_cons.mp hc with rfl | hct
      · refine absurd ?_ ha
        rw [hck]
        exact beq_self_eq_true key
      · rcases ih ⟨c, hct, hck⟩ with ⟨c2, hc2, hp⟩
        exact ⟨c2, List.mem_cons_of_mem _ hc2, hp⟩

theorem findContactByKey_isSome {db : JsonDatabase} {key : List Nat}
    (h : ∃ c ∈ db.contacts, c.contact_key = key) : (findContactByKey db key).isSome := by
  unfold findContactByKey
  rw [List.find?_isSome]
  rcases h with ⟨c, hc, hk⟩
  exact ⟨c, hc, by simp [hk]⟩

theorem updateContactStatus_mem (db : JsonDatabase) (key : List Nat) (st : ContactStatus)
    (r : Option (List Nat)) (now : Int) (h : ∃ c ∈ db.contacts, c.contact_key = key) :
    ∃ c2 ∈ (updateContactStatus db key st r now).contacts,
      c2.contact_key = key ∧ c2.status = st ∧ c2.reason = r := by
  unfold updateContactStatus
  rcases hf : findContactByKey db key with - | e
  · exfalso
    have hs := findContactByKey_isSome h
    rw [hf] at hs
    simp at hs
  · dsimp only
    exact updateFirstContact_mem key st r now db.contacts h

theorem mem_insertBySentAt {a c : Contact} {l : List Contact} :
    a ∈ insertBySentAt c l ↔ a = c ∨ a ∈ l := by
  induction l with
  | nil => simp [insertBySentAt]
  | cons b t ih =>
    unfold insertBySentAt
    split
    · simp only [List.mem_cons, ih]
      tauto
    · simp only [List.mem_cons]

theorem sortBySentAt_mem {a : Contact} :
    ∀ (l acc : List Contact),
      a ∈ List.foldl (fun acc c => insertBySentAt c acc) acc l → a ∈ acc ∨ a ∈ l := by
  intro l
  induction l with
  | nil =>
    intro acc h
    exact Or.inl h
  | cons c t ih =>
    intro acc h
    rcases ih (insertBySentAt c acc) h with h2 | h2
    · rcases mem_insertBySentAt.mp h2 with rfl | h3
      · exact Or.inr (List.mem_cons_self _ _)
      · exact Or.inl h3
    · exact Or.inr (List.mem_cons_of_mem _ h2)

theorem getContactsForSending_head_mem (db : JsonDatabase) (limit offset : Nat) (c : Contact)
    (h : (getContactsForSending db limit offset).head? = some c) : c ∈ db.contacts := by
  have hc : c ∈ getContactsForSending db limit offset := by
    cases hl : getContactsForSending db limit offset with
    | nil => rw [hl] at h; cases h
    | cons a t =>
      rw [hl] at h
      cases h
      exact List.mem_cons_self _ _
  unfold getContactsForSending at hc
  have hc2 := List.mem_of_mem_take hc
  have hc3 := List.mem_of_mem_drop hc2
  rcases sortBySentAt_mem _ [] hc3 with h0 | h4
  · cases h0
  · exact List.mem_of_mem_filter h4

/-- C2 counterexample: the skip and the absence of a delivery call do
happen, but the Contact DB status update is keyed on the normalized
key while the lookup compares stored keys verbatim; for a stored key
that is not normalization-fixed (Ivan_Dev, reachable through the
scanner callback, which stores `authorUsername` unchanged), the update
is a no-op and the contact stays pending — refuting the claim as
stated. -/
theorem C2_duplicate_skip_refuted : ¬ senderDuplicateSkipProp := by
  intro hp
  have h := hp dbUpperIvan histIvan collabTrivial 0 pendingIvanUpper (by decide) (by decide)
  exact absurd h.2.2 (by decide)

/-- C2 amended: when the Sender picks a pending contact already
recorded in the sent history, the cycle reports work done, makes no
`sendMessage` call, yields the DUPLICATE_CONTACT skip result, and —
provided the stored key equals its normalized form, as holds for every
record registered through the dedupe layer — the contact is marked
`skipped` with reason DUPLICATE_CONTACT in the Contact DB. -/
theorem C2_duplicate_skip_cycle (db : JsonDatabase) (hist : SentHistory)
    (collab : Collaborators) (now : Int) (c : Contact)
    (hhead : (getContactsForSending db contactsBatchSize 0).head? = some c)
    (hdup : isAlreadySent hist c.contact_key = true)
    (hkey : (normalizeContact c.contact_key prodDedupe).1 = c.contact_key) :
    (processNextTask db hist collab prodDedupe now).processed = true ∧
    (processNextTask db hist collab prodDedupe now).sendCalls = [] ∧
    (processNextTask db hist collab prodDedupe now).result =
      some { success := false, error := some DUPLICATE_CONTACT } ∧
    ∃ c2 ∈ (processNextTask db hist collab prodDedupe now).db.contacts,
      c2.contact_key = c.contact_key ∧ c2.status = ContactStatus.skipped ∧
      c2.reason = some DUPLICATE_CONTACT := by
  have hne : (getContactsForSending db contactsBatchSize 0).isEmpty = false := by
    cases hl : getContactsForSending db contactsBatchSize 0 with
    | nil => rw [hl] at hhead; cases hhead
    | cons a t => rfl
  have hmem : ∃ c0 ∈ db.contacts, c0.contact_key = c.contact_key :=
    ⟨c, getContactsForSending_head_mem db contactsBatchSize 0 c hhead, rfl⟩
  have h1 :=
    updateContactStatus_mem db c.contact_key ContactStatus.skipped (some DUPLICATE_CONTACT)
      now hmem
  have hmem1 :
      ∃ c0 ∈ (updateContactStatus db c.contact_key ContactStatus.skipped
          (some DUPLICATE_CONTACT) now).contacts, c0.contact_key = c.contact_key := by
    rcases h1 with ⟨c2, hm, hk, -⟩
    exact ⟨c2, hm, hk⟩
  have h2 :=
    updateContactStatus_mem _ c.contact_key ContactStatus.skipped (some DUPLICATE_CONTACT)
      now hmem1
  refine ⟨?_, ?_, ?_, ?_⟩ <;>
    simp only [processNextTask, sendToContact, deduperUpdateContactStatus, hkey, hne, hdup,
      Bool.false_eq_true, if_false, if_true, hhead, beq_self_eq_true] <;>
    try rfl
  exact h2

/-- Witness for C2: the cycle on a ledger whose stored key is already
normalized. -/
theorem C2_duplicate_skip_cycle_witness :
    (getContactsForSending dbLowerIvan contactsBatchSize 0).head? = some pendingIvanLower ∧
    isAlreadySent histIvan pendingIvanLower.contact_key = true ∧
    ((processNextTask dbLowerIvan histIvan collabTrivial prodDedupe 3).processed = true ∧
      (processNextTask dbLowerIvan histIvan collabTrivial prodDedupe 3).sendCalls = [] ∧
      (processNextTask dbLowerIvan histIvan collabTrivial prodDedupe 3).result =
        some { success := false, error := some DUPLICATE_CONTACT } ∧
      ∃ c2 ∈ (processNextTask dbLowerIvan histIvan collabTrivial prodDedupe 3).db.contacts,
        c2.contact_key = pendingIvanLower.contact_key ∧
        c2.status = ContactStatus.skipped ∧ c2.reason = some DUPLICATE_CONTACT) :=
  ⟨by decide, by decide,
    C2_duplicate_skip_cycle dbLowerIvan histIvan collabTrivial 3 pendingIvanLower (by decide)
      (by decide) (by decide)⟩

/-! ### Claim C6 -/

theorem foldl_processFeedEntry_persisted (l : List FeedMessage) :
    ∀ st : ScannerState, (l.foldl processFeedEntry st).persistedId = st.persistedId := by
  induction l with
  | nil =>
    intro st
    rfl
  | cons m t ih =>
    intro st
    rw [List.foldl_cons, ih]
    unfold processFeedEntry
    split <;> rfl

theorem foldl_processFeedEntry_memory (l : List FeedMessage) :
    ∀ (st : ScannerState) (h : l ≠ []), (l.foldl processFeedEntry st).memoryId =
      (l.getLast h).id := by
  induction l with
  | nil =>
    intro st h
    exact absurd rfl h
  | cons m t ih =>
    intro st h
    cases t with
    | nil =>
      show (processFeedEntry st m).memoryId = m.id
      unfold processFeedEntry
      split <;> rfl
    | cons b t2 =>
      rw [List.foldl_cons]
      rw [ih (processFeedEntry st m) (by simp)]
      exact congrArg FeedMessage.id (List.getLast_cons _).symm

/-- C6 counterexample: the persisted watermark is written only once
per scan, after the whole batch; with a two-entry batch, a crash
during the second entry leaves the persisted id at its pre-scan value,
so the fully handled first entry is re-processed on restart — more
than the claimed "at most that one entry". -/
theorem C6_watermark_refuted : ¬ scannerWatermarkProp := by
  intro hp
  have h := hp feedPair scannerStart 1 rfl (by decide)
  exact h { id := 1, denied := false, contacts := [strCodes "alice"] } (by decide) (by decide)

/-- C6 amended: the in-memory watermark does advance strictly after
each entry is handled, but the persisted watermark is written only
after the entire batch: a crash mid-scan leaves it at the pre-scan
value, so a restart re-processes exactly the whole interrupted batch —
every entry of it, handled or not, and nothing outside it (no data
loss); a completed scan persists the id of the last batch entry. -/
theorem C6_watermark_persistence :
    (∀ (st : ScannerState) (msgs : List FeedMessage) (j : Nat),
      (performScanCrashAt st msgs j).persistedId = st.persistedId) ∧
    (∀ (st : ScannerState) (msgs : List FeedMessage) (j : Nat),
      st.persistedId = st.memoryId →
      newFeedBatch msgs (restartScanner (performScanCrashAt st msgs j)).memoryId =
        newFeedBatch msgs st.memoryId) ∧
    (∀ (st : ScannerState) (msgs : List FeedMessage)
      (h : newFeedBatch msgs st.memoryId ≠ []),
      (performScan st msgs).persistedId = ((newFeedBatch msgs st.memoryId).getLast h).id) := by
  refine ⟨?_, ?_, ?_⟩
  · intro st msgs j
    exact foldl_processFeedEntry_persisted _ st
  · intro st msgs j hpm
    unfold restartScanner performScanCrashAt
    dsimp only
    rw [foldl_processFeedEntry_persisted, hpm]
  · intro st msgs h
    unfold performScan
    dsimp only
    rw [if_neg (by simpa [List.isEmpty_iff] using h)]
    dsimp only
    rw [foldl_processFeedEntry_memory _ st h]

/-- Witness for C6: the two-entry feed — a crash after the first entry
leaves the restart batch equal to the whole batch, and a completed
scan persists the last entry id. -/
theorem C6_watermark_persistence_witness :
    newFeedBatch feedPair
        (restartScanner (performScanCrashAt scannerStart feedPair 1)).memoryId =
      newFeedBatch feedPair scannerStart.memoryId ∧
    (performScan scannerStart feedPair).persistedId = 2 := by
  refine ⟨C6_watermark_persistence.2.1 scannerStart feedPair 1 rfl, ?_⟩
  rw [C6_watermark_persistence.2.2 scannerStart feedPair (by decide)]
  decide
